import Mathlib

/-!
Verification of the tenant-isolated revenue-lookup cache.

Shallow embedding of the three source files
`backend/app/services/cache.py`, `backend/app/services/reservations.py`,
`backend/app/api/v1/dashboard.py`:

* Python `dict[str, V]` becomes an association list `List (String × V)`
  with `alistLookup` / `alistInsert` / `alistErase` mirroring subscript
  lookup, assignment and `pop`.
* `time.time()` and TTL arithmetic use `ℚ` (exact time points).
* Python `Decimal` values are embedded as exact rationals; the invariant
  "two fractional digits" is `∃ n : ℤ, x = n / 100`.
* The Redis client is an external collaborator: its observable behaviour at
  a key is a `RedisGetResult` (connection/parse failure, nil reply, or a
  deserialized summary); `get_revenue_summary` receives it as a function of
  the key, and a `redisSet` outcome whose failure the source swallows.
* The database session of `calculate_total_revenue` is an external
  collaborator: `DbResult` is the observable outcome of the try-block
  (exception anywhere, a fetched row, or no row).
* Exceptions raised to the caller become `Except`; code paths that can
  never raise are total functions.
-/

namespace RevenueApp

/-- Lookup in an association list (Python `dict.get`). -/
def alistLookup {α : Type} : List (String × α) → String → Option α
  | [], _ => none
  | (k1, v) :: rest, k => if k1 = k then some v else alistLookup rest k

/-- Remove a key from an association list (Python `dict.pop(k, None)`). -/
def alistErase {α : Type} : List (String × α) → String → List (String × α)
  | [], _ => []
  | (k1, v) :: rest, k =>
      if k1 = k then alistErase rest k else (k1, v) :: alistErase rest k

/-- Overwrite a key in an association list (Python `d[k] = v`). -/
def alistInsert {α : Type} (l : List (String × α)) (k : String) (v : α) :
    List (String × α) :=
  (k, v) :: alistErase l k

theorem alistLookup_erase_self {α : Type} (l : List (String × α)) (k : String) :
    alistLookup (alistErase l k) k = none := by
  induction l with
  | nil => rfl
  | cons kv rest ih =>
      obtain ⟨k1, v⟩ := kv
      by_cases h : k1 = k
      · simp [alistErase, h, ih]
      · simp [alistErase, alistLookup, h, ih]

theorem alistLookup_erase_ne {α : Type} (l : List (String × α)) (k k2 : String)
    (h : k2 ≠ k) : alistLookup (alistErase l k) k2 = alistLookup l k2 := by
  induction l with
  | nil => rfl
  | cons kv rest ih =>
      obtain ⟨k1, v⟩ := kv
      by_cases h1 : k1 = k
      · subst h1
        simp [alistErase, alistLookup, Ne.symm h, ih]
      · simp [alistErase, alistLookup, h1, ih]

theorem alistLookup_insert_self {α : Type} (l : List (String × α))
    (k : String) (v : α) : alistLookup (alistInsert l k v) k = some v := by
  simp [alistInsert, alistLookup]

theorem alistLookup_insert_ne {α : Type} (l : List (String × α))
    (k k2 : String) (v : α) (h : k2 ≠ k) :
    alistLookup (alistInsert l k v) k2 = alistLookup l k2 := by
  simp [alistInsert, alistLookup, Ne.symm h, alistLookup_erase_ne l k k2 h]

/-- `RevenueSummary`: the dict returned by `calculate_total_revenue`
(`{property_id, tenant_id, total, currency, count}`); the `total` string of a
2-decimal `Decimal` is embedded as its exact rational value. -/
structure RevenueSummary where
  property_id : String
  tenant_id : String
  total : ℚ
  currency : String
  count : ℕ
deriving DecidableEq, Repr

/-- The two module-level dicts of `cache.py`:
`_memory_cache` and `_memory_cache_expiry`. -/
structure CacheState where
  memoryCache : List (String × RevenueSummary)
  memoryCacheExpiry : List (String × ℚ)
deriving DecidableEq, Repr

/-- `cache.py` line 27, `_mem_get`: returns the cached value unless an expiry
is recorded and `exp < time.time()`, in which case both dict entries are
popped and `None` is returned.  `now` is the value of `time.time()` at this
call; the returned state reflects the pops. -/
def _mem_get (key : String) (now : ℚ) (st : CacheState) :
    Option RevenueSummary × CacheState :=
  match alistLookup st.memoryCacheExpiry key with
  | some exp =>
      if exp < now then
        (none, ⟨alistErase st.memoryCache key, alistErase st.memoryCacheExpiry key⟩)
      else
        (alistLookup st.memoryCache key, st)
  | none => (alistLookup st.memoryCache key, st)

/-- `cache.py` line 38, `_mem_set`: stores the value and records the absolute
expiry `time.time() + ttl_seconds`. -/
def _mem_set (key : String) (value : RevenueSummary) (ttl_seconds : ℚ)
    (now : ℚ) (st : CacheState) : CacheState :=
  ⟨alistInsert st.memoryCache key value,
   alistInsert st.memoryCacheExpiry key (now + ttl_seconds)⟩

/-- Observable outcome of `await r.get(cache_key)` together with the
`json.loads` that follows: `err` is any raised exception (connection failure,
timeout, protocol or parse error — all caught by the bare `except`), `absent`
is a nil/empty reply (falsy `cached`), `hit` a deserialized summary. -/
inductive RedisGetResult where
  | err : RedisGetResult
  | absent : RedisGetResult
  | hit (value : RevenueSummary) : RedisGetResult
deriving DecidableEq, Repr

/-- Observable outcome of `await r.setex(...)`: success or a raised
exception (swallowed by the source). -/
inductive RedisSetResult where
  | err : RedisSetResult
  | ok : RedisSetResult
deriving DecidableEq, Repr

/-- `cache.py` line 53: `f"revenue:{tenant_id}:{property_id}"`. -/
def revenue_cache_key (tenant_id property_id : String) : String :=
  "revenue:" ++ tenant_id ++ ":" ++ property_id

/-- Python `Decimal` rounding mode `ROUND_HALF_EVEN`, the context default
used by the bare `.quantize(Decimal("0.01"))` calls in `reservations.py`:
round to the nearest integer, ties to the even one. -/
def roundHalfEven (y : ℚ) : ℤ :=
  if y - (⌊y⌋ : ℚ) < 1/2 then ⌊y⌋
  else if (1 : ℚ)/2 < y - (⌊y⌋ : ℚ) then ⌊y⌋ + 1
  else if ⌊y⌋ % 2 = 0 then ⌊y⌋ else ⌊y⌋ + 1

/-- Python `Decimal` rounding mode `ROUND_HALF_UP` (used in `dashboard.py`):
round to the nearest integer, ties away from zero. -/
def roundHalfAwayFromZero (y : ℚ) : ℤ :=
  if 0 ≤ y then ⌊y + 1/2⌋ else -⌊-y + 1/2⌋

/-- `Decimal(x).quantize(Decimal("0.01"))` — 2 decimal places, default
rounding (half-even), as in `reservations.py` lines 87 and 120. -/
def quantize2HalfEven (x : ℚ) : ℚ := (roundHalfEven (100 * x) : ℚ) / 100

/-- `Decimal(x).quantize(Decimal("0.01"), rounding=ROUND_HALF_UP)` — 2
decimal places, ties away from zero, as in `dashboard.py` lines 54-56. -/
def quantize2HalfUp (x : ℚ) : ℚ := (roundHalfAwayFromZero (100 * x) : ℚ) / 100

/-- Observable outcome of the database try-block of
`calculate_total_revenue`: `unavailable` is any exception (pool
initialization failure, missing `session_factory` — which the source turns
into `raise Exception(...)` — or a query error); `noRow` means `fetchone()`
returned `None`; `row total_revenue reservation_count` a fetched row, whose
`SUM` may be SQL NULL (`none`). -/
inductive DbResult where
  | unavailable : DbResult
  | noRow : DbResult
  | row (total_revenue : Option ℚ) (reservation_count : ℕ) : DbResult
deriving DecidableEq, Repr

/-- `reservations.py` lines 110-116: the deterministic substitute dataset
(`mock_data`), totals embedded as exact rationals. -/
def mock_data : List (String × (ℚ × ℕ)) :=
  [("prop-001", (1000, 3)),
   ("prop-002", (49755/10, 4)),
   ("prop-003", (61005/10, 2)),
   ("prop-004", (17765/10, 4)),
   ("prop-005", (3256, 3))]

/-- `reservations.py` line 53, `calculate_total_revenue`, as a function of
the observable database outcome.  On a row with non-NULL sum: quantize with
the `Decimal` default rounding and return the row count.  On no row or a
NULL sum: the zero summary.  On any exception: the mock fallback, quantized
to 2 decimal places. -/
def calculate_total_revenue (property_id tenant_id : String) (db : DbResult) :
    RevenueSummary :=
  match db with
  | DbResult.row (some total_revenue) reservation_count =>
      ⟨property_id, tenant_id, quantize2HalfEven total_revenue, "USD",
       reservation_count⟩
  | DbResult.row none _ => ⟨property_id, tenant_id, 0, "USD", 0⟩
  | DbResult.noRow => ⟨property_id, tenant_id, 0, "USD", 0⟩
  | DbResult.unavailable =>
      let d := (alistLookup mock_data property_id).getD (0, 0)
      ⟨property_id, tenant_id, quantize2HalfEven d.1, "USD", d.2⟩

/-- `cache.py` line 45, `get_revenue_summary`.  `now` is `time.time()`,
`redisGet` the external tier's observable behaviour per key, `redisSet` the
outcome of the best-effort external write (unused: the source swallows it),
`db` the database outcome `calculate_total_revenue` would observe.  Returns
the summary, the updated in-memory tiers, and whether
`calculate_total_revenue` (the data-store collaborator) was invoked. -/
def get_revenue_summary (property_id tenant_id : String) (now : ℚ)
    (redisGet : String → RedisGetResult) (redisSet : String → RedisSetResult)
    (db : DbResult) (st : CacheState) :
    RevenueSummary × CacheState × Bool :=
  let cache_key := revenue_cache_key tenant_id property_id
  let ttl_seconds : ℚ := 300
  match _mem_get cache_key now st with
  | (some mem_hit, st1) => (mem_hit, st1, false)
  | (none, st1) =>
      match redisGet cache_key with
      | RedisGetResult.hit data =>
          (data, _mem_set cache_key data ttl_seconds now st1, false)
      | _ =>
          let result := calculate_total_revenue property_id tenant_id db
          (result, _mem_set cache_key result ttl_seconds now st1, true)

/-- `dashboard.py` lines 13-16: the `TENANT_PROPERTIES` allowlist (sets
embedded as lists). -/
def TENANT_PROPERTIES : List (String × List String) :=
  [("tenant-a", ["prop-001", "prop-004", "prop-005"]),
   ("tenant-b", ["prop-002", "prop-003"])]

/-- The caller identity consumed by `_get_tenant_id`: `tenant_id = none`
covers both a missing attribute/key and an explicit `None` (the `dict.get` /
`getattr` defaults); `some ""` is an empty-string field. -/
structure CurrentUser where
  tenant_id : Option String
deriving DecidableEq, Repr

/-- `dashboard.py` line 19, `_get_tenant_id`: `... or "default_tenant"`
replaces any falsy value (`None` or the empty string). -/
def _get_tenant_id (current_user : CurrentUser) : String :=
  match current_user.tenant_id with
  | none => "default_tenant"
  | some t => if t = "" then "default_tenant" else t

/-- `dashboard.py` line 28, `_tenant_owns_property`: `if not allowed` is
true for a missing tenant and for an empty property set. -/
def _tenant_owns_property (tenant_id property_id : String) : Bool :=
  match alistLookup TENANT_PROPERTIES tenant_id with
  | none => false
  | some allowed =>
      if allowed = [] then false else allowed.contains property_id

/-- `raise HTTPException(status_code, detail)`. -/
structure HTTPError where
  status_code : ℕ
  detail : String
deriving DecidableEq, Repr

/-- The JSON body returned by `get_dashboard_summary`; `total_revenue` is
kept as the exact rational of the quantized `Decimal` (the final `float`
conversion is an external-facing convenience the claims do not touch). -/
structure DashboardSummary where
  property_id : String
  total_revenue : ℚ
  currency : String
  reservations_count : ℕ
deriving DecidableEq, Repr

/-- `dashboard.py` line 36, `get_dashboard_summary`: derives the tenant,
rejects non-owners with a 404 before any cache or aggregation work, and
otherwise serves the (re-quantized, `ROUND_HALF_UP`) cached or computed
summary.  The `Bool` reports whether the data-store collaborator ran. -/
def get_dashboard_summary (property_id : String) (current_user : CurrentUser)
    (now : ℚ) (redisGet : String → RedisGetResult)
    (redisSet : String → RedisSetResult) (db : DbResult) (st : CacheState) :
    Except HTTPError DashboardSummary × CacheState × Bool :=
  let tenant_id := _get_tenant_id current_user
  if _tenant_owns_property tenant_id property_id then
    match get_revenue_summary property_id tenant_id now redisGet redisSet db st with
    | (revenue_data, st1, invoked) =>
        (Except.ok
          ⟨revenue_data.property_id, quantize2HalfUp revenue_data.total,
           revenue_data.currency, revenue_data.count⟩, st1, invoked)
  else
    (Except.error ⟨404, "Property not found"⟩, st, false)

/-- Days since 1970-01-01 of a proleptic-Gregorian civil date
(the standard days-from-civil algorithm); embeds the calendar arithmetic
behind Python `datetime`. -/
def daysFromCivil (y : ℤ) (m d : ℕ) : ℤ :=
  let y1 : ℤ := if m ≤ 2 then y - 1 else y
  let era : ℤ := (if 0 ≤ y1 then y1 else y1 - 399) / 400
  let yoe : ℤ := y1 - era * 400
  let mp : ℤ := ((m : ℤ) + 9) % 12
  let doy : ℤ := (153 * mp + 2) / 5 + (d : ℤ) - 1
  let doe : ℤ := yoe * 365 + yoe / 4 - yoe / 100 + doy
  era * 146097 + doe - 719468

/-- Seconds since the epoch of a wall-clock datetime read on the
proleptic-Gregorian calendar (for a UTC wall clock this is the Unix
timestamp of the instant). -/
def wallClockSeconds (year : ℤ) (month day hour minute second : ℕ) : ℤ :=
  daysFromCivil year month day * 86400 + hour * 3600 + minute * 60 + second

/-- A timezone, modelled by the UTC offset (seconds) in effect at a given
local wall-clock time; stands for the external `ZoneInfo` tzdata lookup.
`datetime(...,tzinfo=tz).astimezone(timezone.utc)` denotes the instant
`wall - offset(wall)` in epoch seconds. -/
structure Timezone where
  utcOffsetAt : ℤ → ℤ

/-- Modelled from the spec: the IANA tzdata entry for America/New_York is
not part of this repository; per the spec's month-boundary example, the
February and March 2024 month starts fall in EST, UTC-5 (DST begins only on
2024-03-10), so the offset at the instants exercised is a constant
-5 hours. -/
def americaNewYorkEST : Timezone := ⟨fun _ => -(5 * 3600)⟩

/-- `reservations.py` lines 21-33 of `calculate_monthly_revenue`: month
start/end in property-local time, with the `month < 12` rollover, converted
to UTC.  Returns `(start_utc, end_utc)` in epoch seconds. -/
def calculate_monthly_revenue_bounds (month : ℕ) (year : ℤ) (tz : Timezone) :
    ℤ × ℤ :=
  let start_local := wallClockSeconds year month 1 0 0 0
  let end_local :=
    if month < 12 then wallClockSeconds year (month + 1) 1 0 0 0
    else wallClockSeconds (year + 1) 1 1 0 0 0
  (start_local - tz.utcOffsetAt start_local,
   end_local - tz.utcOffsetAt end_local)

/-- A concrete summary used by concrete witnesses and counterexamples. -/
def sampleSummary : RevenueSummary := ⟨"prop-001", "tenant-a", 1000, "USD", 3⟩

theorem _mem_get_expiry_none {key : String} {now : ℚ} {st : CacheState}
    (h : alistLookup st.memoryCacheExpiry key = none) :
    _mem_get key now st = (alistLookup st.memoryCache key, st) := by
  simp [_mem_get, h]

theorem _mem_get_expired {key : String} {now exp : ℚ} {st : CacheState}
    (h : alistLookup st.memoryCacheExpiry key = some exp) (hlt : exp < now) :
    _mem_get key now st =
      (none, ⟨alistErase st.memoryCache key, alistErase st.memoryCacheExpiry key⟩) := by
  simp [_mem_get, h, hlt]

theorem _mem_get_fresh {key : String} {now exp : ℚ} {st : CacheState}
    (h : alistLookup st.memoryCacheExpiry key = some exp) (hle : now ≤ exp) :
    _mem_get key now st = (alistLookup st.memoryCache key, st) := by
  simp [_mem_get, h, not_lt.mpr hle]

theorem get_revenue_summary_mem_hit {p t : String} {now : ℚ}
    {rg : String → RedisGetResult} {rs : String → RedisSetResult}
    {db : DbResult} {st st2 : CacheState} {v : RevenueSummary}
    (h : _mem_get (revenue_cache_key t p) now st = (some v, st2)) :
    get_revenue_summary p t now rg rs db st = (v, st2, false) := by
  simp only [get_revenue_summary, h]

theorem get_revenue_summary_miss_redis_hit {p t : String} {now : ℚ}
    {rg : String → RedisGetResult} {rs : String → RedisSetResult}
    {db : DbResult} {st st2 : CacheState} {v : RevenueSummary}
    (h : _mem_get (revenue_cache_key t p) now st = (none, st2))
    (hr : rg (revenue_cache_key t p) = RedisGetResult.hit v) :
    get_revenue_summary p t now rg rs db st =
      (v, _mem_set (revenue_cache_key t p) v 300 now st2, false) := by
  simp only [get_revenue_summary, h, hr]

theorem get_revenue_summary_miss_compute {p t : String} {now : ℚ}
    {rg : String → RedisGetResult} {rs : String → RedisSetResult}
    {db : DbResult} {st st2 : CacheState}
    (h : _mem_get (revenue_cache_key t p) now st = (none, st2))
    (hr : rg (revenue_cache_key t p) = RedisGetResult.err ∨
          rg (revenue_cache_key t p) = RedisGetResult.absent) :
    get_revenue_summary p t now rg rs db st =
      (calculate_total_revenue p t db,
       _mem_set (revenue_cache_key t p) (calculate_total_revenue p t db)
         300 now st2, true) := by
  rcases hr with hr | hr <;> simp only [get_revenue_summary, h, hr]

theorem revenue_cache_key_inj_tenant {t1 t2 p : String}
    (h : revenue_cache_key t1 p = revenue_cache_key t2 p) : t1 = t2 := by
  have hd := congrArg String.data h
  simp only [revenue_cache_key, String.data_append] at hd
  exact String.ext
    (List.append_cancel_left (List.append_cancel_right (List.append_cancel_right hd)))

/-- C1: for distinct tenants `t1 ≠ t2` and any property `p` the derived
cache keys differ, and a lookup by `t2` for `p` — against local and
external tiers holding only `t1`'s entry for `p` — never returns `t1`'s
cached summary: it computes afresh for `t2`. -/
theorem C1_cache_key_tenant_isolation (t1 t2 p : String) (h : t1 ≠ t2) :
    revenue_cache_key t1 p ≠ revenue_cache_key t2 p ∧
    ∀ (v : RevenueSummary) (exp now : ℚ) (rs : String → RedisSetResult)
      (db : DbResult),
      (get_revenue_summary p t2 now
        (fun k => if k = revenue_cache_key t1 p then RedisGetResult.hit v
                  else RedisGetResult.absent)
        rs db
        ⟨[(revenue_cache_key t1 p, v)], [(revenue_cache_key t1 p, exp)]⟩).1 =
      calculate_total_revenue p t2 db := by
  have hkey : revenue_cache_key t1 p ≠ revenue_cache_key t2 p :=
    fun hc => h (revenue_cache_key_inj_tenant hc)
  refine ⟨hkey, ?_⟩
  intro v exp now rs db
  have hexp : alistLookup [(revenue_cache_key t1 p, exp)]
      (revenue_cache_key t2 p) = none := by
    simp [alistLookup, hkey]
  have hmem : alistLookup [(revenue_cache_key t1 p, v)]
      (revenue_cache_key t2 p) = none := by
    simp [alistLookup, hkey]
  have hget : _mem_get (revenue_cache_key t2 p) now
      ⟨[(revenue_cache_key t1 p, v)], [(revenue_cache_key t1 p, exp)]⟩ =
      (none, ⟨[(revenue_cache_key t1 p, v)], [(revenue_cache_key t1 p, exp)]⟩) := by
    rw [_mem_get_expiry_none hexp]
    simp [hmem]
  rw [get_revenue_summary_miss_compute hget
    (Or.inr (by simp [Ne.symm hkey]))]

/-- Concrete instance of C1 at two real tenants. -/
theorem C1_witness :
    revenue_cache_key "tenant-a" "prop-001" ≠
      revenue_cache_key "tenant-b" "prop-001" :=
  (C1_cache_key_tenant_isolation "tenant-a" "tenant-b" "prop-001"
    (by decide)).1

/-- C2: the key derivation is not injective over all pairs when identifiers
may contain `:` — tenants `"a"` (property `"b:c"`) and `"a:b"` (property
`"c"`) collide on `"revenue:a:b:c"`, and the second tenant's lookup is
served the first tenant's cached entry. -/
theorem C2_cache_key_collision_across_tenants :
    revenue_cache_key "a" "b:c" = revenue_cache_key "a:b" "c" ∧
    ("a" : String) ≠ "a:b" ∧
    (get_revenue_summary "c" "a:b" 0 (fun _ => RedisGetResult.err)
      (fun _ => RedisSetResult.err) DbResult.noRow
      ⟨[(revenue_cache_key "a" "b:c", sampleSummary)],
       [(revenue_cache_key "a" "b:c", 100)]⟩).1 = sampleSummary :=
  ⟨by decide, by decide, by decide⟩

/-- C3: the ownership check is false for unknown tenants and unlisted
properties, and for every unauthorized pairing the entry point returns the
404 not-found outcome with the cache state untouched and the aggregator
never invoked — the check runs strictly before cache and aggregator. -/
theorem C3_authorization_before_work :
    (∀ t p, alistLookup TENANT_PROPERTIES t = none →
      _tenant_owns_property t p = false) ∧
    (∀ t p allowed, alistLookup TENANT_PROPERTIES t = some allowed →
      p ∉ allowed → _tenant_owns_property t p = false) ∧
    (∀ (u : CurrentUser) (p : String) (now : ℚ)
       (rg : String → RedisGetResult) (rs : String → RedisSetResult)
       (db : DbResult) (st : CacheState),
      _tenant_owns_property (_get_tenant_id u) p = false →
      get_dashboard_summary p u now rg rs db st =
        (Except.error ⟨404, "Property not found"⟩, st, false)) := by
  refine ⟨?_, ?_, ?_⟩
  · intro t p h
    simp [_tenant_owns_property, h]
  · intro t p allowed h hp
    by_cases hnil : allowed = []
    · simp [_tenant_owns_property, h, hnil]
    · simp [_tenant_owns_property, h, hnil, hp]
  · intro u p now rg rs db st h
    simp [get_dashboard_summary, h]

/-- Concrete instance of C3: the spec's authorization example — tenant-a
requesting prop-003 (owned only by tenant-b) gets the not-found outcome
with no side effects. -/
theorem C3_witness :
    get_dashboard_summary "prop-003" ⟨some "tenant-a"⟩ 0
      (fun _ => RedisGetResult.err) (fun _ => RedisSetResult.err)
      DbResult.noRow ⟨[], []⟩ =
      (Except.error ⟨404, "Property not found"⟩, ⟨[], []⟩, false) :=
  C3_authorization_before_work.2.2 ⟨some "tenant-a"⟩ "prop-003" 0
    (fun _ => RedisGetResult.err) (fun _ => RedisSetResult.err)
    DbResult.noRow ⟨[], []⟩ (by decide)

/-- C4: external-tier fault isolation of `get_revenue_summary` — a failing
external read behaves exactly like a miss, the outcome never depends on the
external write's result, and under a totally failing external tier the call
still returns the local-tier hit or the fresh computation, which is written
to the local tier. (The embedding is a total function because the source
catches every external-tier exception.) -/
theorem C4_external_tier_fault_isolation (p t : String) (now : ℚ)
    (rg : String → RedisGetResult) (rs : String → RedisSetResult)
    (db : DbResult) (st : CacheState) :
    (∀ rgE rgA : String → RedisGetResult,
       rgE (revenue_cache_key t p) = RedisGetResult.err →
       rgA (revenue_cache_key t p) = RedisGetResult.absent →
       get_revenue_summary p t now rgE rs db st =
         get_revenue_summary p t now rgA rs db st) ∧
    (∀ rs2 : String → RedisSetResult,
       get_revenue_summary p t now rg rs db st =
         get_revenue_summary p t now rg rs2 db st) ∧
    ((get_revenue_summary p t now (fun _ => RedisGetResult.err)
        (fun _ => RedisSetResult.err) db st).1 =
      ((_mem_get (revenue_cache_key t p) now st).1.getD
        (calculate_total_revenue p t db))) ∧
    ((_mem_get (revenue_cache_key t p) now st).1 = none →
      (get_revenue_summary p t now (fun _ => RedisGetResult.err)
        (fun _ => RedisSetResult.err) db st).2.1 =
      _mem_set (revenue_cache_key t p) (calculate_total_revenue p t db)
        300 now (_mem_get (revenue_cache_key t p) now st).2) := by
  rcases hm : _mem_get (revenue_cache_key t p) now st with ⟨o, st2⟩
  refine ⟨?_, ?_, ?_, ?_⟩
  · intro rgE rgA hE hA
    cases o with
    | some v =>
        rw [get_revenue_summary_mem_hit hm, get_revenue_summary_mem_hit hm]
    | none =>
        rw [get_revenue_summary_miss_compute hm (Or.inl hE),
            get_revenue_summary_miss_compute hm (Or.inr hA)]
  · intro rs2
    cases o with
    | some v =>
        rw [get_revenue_summary_mem_hit hm, get_revenue_summary_mem_hit hm]
    | none =>
        rcases hrg : rg (revenue_cache_key t p) with _ | _ | v
        · rw [get_revenue_summary_miss_compute hm (Or.inl hrg),
              get_revenue_summary_miss_compute hm (Or.inl hrg)]
        · rw [get_revenue_summary_miss_compute hm (Or.inr hrg),
              get_revenue_summary_miss_compute hm (Or.inr hrg)]
        · rw [get_revenue_summary_miss_redis_hit hm hrg,
              get_revenue_summary_miss_redis_hit hm hrg]
  · cases o with
    | some v => rw [get_revenue_summary_mem_hit hm]; simp [hm]
    | none => rw [get_revenue_summary_miss_compute hm (Or.inl rfl)]; simp [hm]
  · intro hnone
    cases o with
    | some v => simp [hm] at hnone
    | none => rw [get_revenue_summary_miss_compute hm (Or.inl rfl)]

/-- Concrete instance of C4: on an empty local tier, a failing external
read behaves like a miss, and the computed summary still lands in the
local tier. -/
theorem C4_witness :
    (get_revenue_summary "prop-001" "tenant-a" 0 (fun _ => RedisGetResult.err)
        (fun _ => RedisSetResult.err) DbResult.noRow ⟨[], []⟩ =
      get_revenue_summary "prop-001" "tenant-a" 0 (fun _ => RedisGetResult.absent)
        (fun _ => RedisSetResult.err) DbResult.noRow ⟨[], []⟩) ∧
    (get_revenue_summary "prop-001" "tenant-a" 0 (fun _ => RedisGetResult.err)
        (fun _ => RedisSetResult.err) DbResult.noRow ⟨[], []⟩).2.1 =
      _mem_set (revenue_cache_key "tenant-a" "prop-001")
        (calculate_total_revenue "prop-001" "tenant-a" DbResult.noRow) 300 0
        (_mem_get (revenue_cache_key "tenant-a" "prop-001") 0 ⟨[], []⟩).2 :=
  ⟨(C4_external_tier_fault_isolation "prop-001" "tenant-a" 0
      (fun _ => RedisGetResult.err) (fun _ => RedisSetResult.err)
      DbResult.noRow ⟨[], []⟩).1
      (fun _ => RedisGetResult.err) (fun _ => RedisGetResult.absent) rfl rfl,
   (C4_external_tier_fault_isolation "prop-001" "tenant-a" 0
      (fun _ => RedisGetResult.err) (fun _ => RedisSetResult.err)
      DbResult.noRow ⟨[], []⟩).2.2.2 rfl⟩

/-- C5 as stated is false at the boundary instant: an entry written at time
0 with TTL 300 has `expires_at = 300`, yet a get at `now = 300` (where
`now ≥ expires_at`) still returns it — the source expires only on
`expires_at < now`. -/
theorem C5_expiry_boundary_counterexample :
    alistLookup (_mem_set "k" sampleSummary 300 0 ⟨[], []⟩).memoryCacheExpiry
      "k" = some (0 + 300) ∧
    (0 : ℚ) + 300 ≤ 300 ∧
    (_mem_get "k" 300 (_mem_set "k" sampleSummary 300 0 ⟨[], []⟩)).1 =
      some sampleSummary := by
  refine ⟨?_, by norm_num, ?_⟩ <;>
    norm_num [_mem_set, _mem_get, alistInsert, alistErase, alistLookup]

/-- C5 (amended): every local write records the absolute expiry
`write_time + ttl_seconds` (and the value); on a get, an entry whose expiry
is strictly past (`expires_at < now`) is treated as absent and both local
entries are purged at that moment, while an entry with `now ≤ expires_at`
is served unchanged. -/
theorem C5_lazy_expiry (key : String) (v : RevenueSummary)
    (ttl t0 now exp : ℚ) (st : CacheState) :
    alistLookup (_mem_set key v ttl t0 st).memoryCacheExpiry key =
      some (t0 + ttl) ∧
    alistLookup (_mem_set key v ttl t0 st).memoryCache key = some v ∧
    (alistLookup st.memoryCacheExpiry key = some exp → exp < now →
      (_mem_get key now st).1 = none ∧
      alistLookup (_mem_get key now st).2.memoryCache key = none ∧
      alistLookup (_mem_get key now st).2.memoryCacheExpiry key = none) ∧
    (alistLookup st.memoryCacheExpiry key = some exp → now ≤ exp →
      _mem_get key now st = (alistLookup st.memoryCache key, st)) := by
  refine ⟨?_, ?_, ?_, ?_⟩
  · exact alistLookup_insert_self _ _ _
  · exact alistLookup_insert_self _ _ _
  · intro h hlt
    rw [_mem_get_expired h hlt]
    exact ⟨rfl, alistLookup_erase_self _ _, alistLookup_erase_self _ _⟩
  · intro h hle
    exact _mem_get_fresh h hle

/-- Concrete instance of C5 (amended): a strictly expired entry is absent
and purged. -/
theorem C5_lazy_expiry_witness :
    (_mem_get "k" 400 ⟨[("k", sampleSummary)], [("k", (300 : ℚ))]⟩).1 = none ∧
    alistLookup (_mem_get "k" 400
      ⟨[("k", sampleSummary)], [("k", (300 : ℚ))]⟩).2.memoryCache "k" = none ∧
    alistLookup (_mem_get "k" 400
      ⟨[("k", sampleSummary)], [("k", (300 : ℚ))]⟩).2.memoryCacheExpiry "k" =
      none :=
  (C5_lazy_expiry "k" sampleSummary 300 0 400 300
    ⟨[("k", sampleSummary)], [("k", (300 : ℚ))]⟩).2.2.1 rfl (by norm_num)

/-- C10: a caller identity with a missing or falsy `tenant_id` is processed
as `"default_tenant"`, which has no registered properties, so every request
yields the not-found outcome with no cache or aggregation work. -/
theorem C10_default_tenant_not_found (u : CurrentUser)
    (h : u.tenant_id = none ∨ u.tenant_id = some "") :
    _get_tenant_id u = "default_tenant" ∧
    alistLookup TENANT_PROPERTIES "default_tenant" = none ∧
    ∀ (p : String) (now : ℚ) (rg : String → RedisGetResult)
      (rs : String → RedisSetResult) (db : DbResult) (st : CacheState),
      get_dashboard_summary p u now rg rs db st =
        (Except.error ⟨404, "Property not found"⟩, st, false) := by
  have hid : _get_tenant_id u = "default_tenant" := by
    rcases h with h | h <;> simp [_get_tenant_id, h]
  refine ⟨hid, by decide, ?_⟩
  intro p now rg rs db st
  have hown : _tenant_owns_property (_get_tenant_id u) p = false := by
    rw [hid]
    simp [_tenant_owns_property,
      show alistLookup TENANT_PROPERTIES "default_tenant" = none from by decide]
  simp [get_dashboard_summary, hown]

/-- Concrete instance of C10 at an identity with no tenant field. -/
theorem C10_witness :
    _get_tenant_id ⟨none⟩ = "default_tenant" ∧
    get_dashboard_summary "prop-001" ⟨none⟩ 0 (fun _ => RedisGetResult.err)
      (fun _ => RedisSetResult.err) DbResult.noRow ⟨[], []⟩ =
      (Except.error ⟨404, "Property not found"⟩, ⟨[], []⟩, false) :=
  ⟨(C10_default_tenant_not_found ⟨none⟩ (Or.inl rfl)).1,
   (C10_default_tenant_not_found ⟨none⟩ (Or.inl rfl)).2.2 "prop-001" 0
     (fun _ => RedisGetResult.err) (fun _ => RedisSetResult.err)
     DbResult.noRow ⟨[], []⟩⟩

theorem roundHalfEven_near (y : ℚ) :
    |((roundHalfEven y : ℤ) : ℚ) - y| ≤ 1/2 := by
  have h1 : (⌊y⌋ : ℚ) ≤ y := Int.floor_le y
  have h2 : y < ⌊y⌋ + 1 := Int.lt_floor_add_one y
  unfold roundHalfEven
  split_ifs with ha hb hc <;>
    · rw [abs_le]
      constructor <;> push_cast <;> linarith

theorem roundHalfAway_near (y : ℚ) :
    |((roundHalfAwayFromZero y : ℤ) : ℚ) - y| ≤ 1/2 := by
  unfold roundHalfAwayFromZero
  split_ifs with h0
  · have h1 : (⌊y + 1/2⌋ : ℚ) ≤ y + 1/2 := Int.floor_le _
    have h2 : y + 1/2 < ⌊y + 1/2⌋ + 1 := Int.lt_floor_add_one _
    rw [abs_le]
    constructor <;> linarith
  · have h1 : (⌊-y + 1/2⌋ : ℚ) ≤ -y + 1/2 := Int.floor_le _
    have h2 : -y + 1/2 < ⌊-y + 1/2⌋ + 1 := Int.lt_floor_add_one _
    rw [abs_le]
    constructor <;> push_cast <;> linarith

theorem roundHalfAway_tie (y : ℚ)
    (h : |((roundHalfAwayFromZero y : ℤ) : ℚ) - y| = 1/2) :
    |((roundHalfAwayFromZero y : ℤ) : ℚ)| = |y| + 1/2 := by
  by_cases h0 : 0 ≤ y
  · rw [show roundHalfAwayFromZero y = ⌊y + 1/2⌋ from if_pos h0] at h ⊢
    have h2 : y + 1/2 < ⌊y + 1/2⌋ + 1 := Int.lt_floor_add_one _
    rcases (abs_eq (by norm_num : (0:ℚ) ≤ 1/2)).mp h with h4 | h4
    · rw [abs_of_nonneg h0, abs_of_nonneg (by linarith : (0:ℚ) ≤ (⌊y + 1/2⌋ : ℚ))]
      linarith
    · exfalso
      push_cast at h2 h4
      linarith
  · rw [show roundHalfAwayFromZero y = -⌊-y + 1/2⌋ from if_neg h0] at h ⊢
    have h1 : (⌊-y + 1/2⌋ : ℚ) ≤ -y + 1/2 := Int.floor_le _
    have h2 : -y + 1/2 < ⌊-y + 1/2⌋ + 1 := Int.lt_floor_add_one _
    push_cast at h ⊢
    rcases (abs_eq (by norm_num : (0:ℚ) ≤ 1/2)).mp h with h4 | h4
    · exfalso
      linarith
    · rw [abs_of_neg (by linarith : y < 0),
        abs_of_neg (by linarith : -((⌊-y + 1/2⌋ : ℤ) : ℚ) < 0)]
      linarith

theorem roundHalfAway_intCast (n : ℤ) :
    roundHalfAwayFromZero (n : ℚ) = n := by
  have hhalf : ⌊(1 : ℚ)/2⌋ = 0 := by norm_num
  unfold roundHalfAwayFromZero
  split_ifs with h0
  · rw [Int.floor_int_add, hhalf, add_zero]
  · rw [show -(n : ℚ) + 1/2 = ((-n : ℤ) : ℚ) + 1/2 from by push_cast; ring,
      Int.floor_int_add, hhalf, add_zero, neg_neg]

theorem quantize2HalfUp_eq (x : ℚ) :
    quantize2HalfUp x = ((roundHalfAwayFromZero (100 * x) : ℤ) : ℚ) / 100 :=
  rfl

theorem quantize2HalfUp_idem (x : ℚ) :
    quantize2HalfUp (quantize2HalfUp x) = quantize2HalfUp x := by
  rw [quantize2HalfUp_eq x, quantize2HalfUp_eq,
    show (100 : ℚ) * (((roundHalfAwayFromZero (100 * x) : ℤ) : ℚ) / 100) =
      ((roundHalfAwayFromZero (100 * x) : ℤ) : ℚ) from by ring,
    roundHalfAway_intCast]

/-- C6 as stated is false: the aggregator quantizes with the `Decimal`
context default, round-half-even, not round-half-up — a successful
aggregation whose summed amount is 0.125 yields total 0.12 where half-up
would give 0.13. -/
theorem C6_rounding_mode_counterexample :
    (calculate_total_revenue "prop-001" "tenant-a"
      (DbResult.row (some (1/8)) 1)).total = 12/100 ∧
    quantize2HalfUp (1/8) = 13/100 ∧
    (12/100 : ℚ) ≠ 13/100 := by
  refine ⟨?_, ?_, by norm_num⟩
  · norm_num [calculate_total_revenue, quantize2HalfEven, roundHalfEven]
  · norm_num [quantize2HalfUp, roundHalfAwayFromZero]

/-- C6 (amended): on success with at least one matching row the aggregator
returns the summed amount quantized to 2 decimal places with the `Decimal`
default rounding (round-half-even, ties to the even cent) together with the
true row count; on success with zero matching rows (or a NULL sum) it
returns a zero-amount, zero-count summary. -/
theorem C6_aggregation_success (p t : String) (total : ℚ) (cnt : ℕ) :
    calculate_total_revenue p t (DbResult.row (some total) cnt) =
      ⟨p, t, quantize2HalfEven total, "USD", cnt⟩ ∧
    (∃ n : ℤ, quantize2HalfEven total = (n : ℚ) / 100) ∧
    |quantize2HalfEven total - total| ≤ 1/200 ∧
    calculate_total_revenue p t DbResult.noRow = ⟨p, t, 0, "USD", 0⟩ ∧
    calculate_total_revenue p t (DbResult.row none cnt) =
      ⟨p, t, 0, "USD", 0⟩ := by
  refine ⟨rfl, ⟨roundHalfEven (100 * total), rfl⟩, ?_, rfl, rfl⟩
  have h := roundHalfEven_near (100 * total)
  have heq : quantize2HalfEven total - total =
      (((roundHalfEven (100 * total) : ℤ) : ℚ) - 100 * total) / 100 := by
    unfold quantize2HalfEven
    ring
  rw [heq, abs_div, show |(100 : ℚ)| = 100 from by norm_num]
  linarith

/-- C7: the boundary quantizer yields a value with exactly two fractional
digits, is idempotent, and rounds to the nearest cent with ties away from
zero (toward the higher magnitude). -/
theorem C7_quantize_half_up (x : ℚ) :
    (∃ n : ℤ, quantize2HalfUp x = (n : ℚ) / 100) ∧
    quantize2HalfUp (quantize2HalfUp x) = quantize2HalfUp x ∧
    |quantize2HalfUp x - x| ≤ 1/200 ∧
    (|quantize2HalfUp x - x| = 1/200 →
      |quantize2HalfUp x| = |x| + 1/200) := by
  have heq : quantize2HalfUp x - x =
      (((roundHalfAwayFromZero (100 * x) : ℤ) : ℚ) - 100 * x) / 100 := by
    unfold quantize2HalfUp
    ring
  have habs : |quantize2HalfUp x - x| =
      |((roundHalfAwayFromZero (100 * x) : ℤ) : ℚ) - 100 * x| / 100 := by
    rw [heq, abs_div, show |(100 : ℚ)| = 100 from by norm_num]
  refine ⟨⟨roundHalfAwayFromZero (100 * x), rfl⟩, quantize2HalfUp_idem x,
    ?_, ?_⟩
  · have h := roundHalfAway_near (100 * x)
    rw [habs]
    linarith
  · intro htie
    have h2 : |((roundHalfAwayFromZero (100 * x) : ℤ) : ℚ) - 100 * x| = 1/2 := by
      rw [habs] at htie
      linarith
    have h3 := roundHalfAway_tie (100 * x) h2
    rw [quantize2HalfUp_eq, abs_div, show |(100 : ℚ)| = 100 from by norm_num,
      h3, abs_mul, show |(100 : ℚ)| = 100 from by norm_num]
    ring

/-- Concrete instance of C7's tie case: 0.005 is quantized to 0.01, away
from zero. -/
theorem C7_witness :
    |quantize2HalfUp (1/200) - 1/200| = 1/200 ∧
    |quantize2HalfUp (1/200)| = |(1/200 : ℚ)| + 1/200 := by
  have h : |quantize2HalfUp (1/200) - 1/200| = 1/200 := by
    norm_num [quantize2HalfUp, roundHalfAwayFromZero]
  exact ⟨h, (C7_quantize_half_up (1/200)).2.2.2 h⟩

/-- C8: the monthly-revenue bounds are the first instant of the month and
the first instant of the following month, read in the property's timezone
and converted to UTC, with month-12 rollover to January of the next year;
concretely, for America/New_York (EST, UTC-5) February 2024 the bounds are
2024-02-01T05:00:00Z and 2024-03-01T05:00:00Z, epoch seconds 1706763600 and
1709269200, spanning the 29-day leap month. -/
theorem C8_month_bounds (year : ℤ) (month : ℕ) (tz : Timezone)
    (h : month ≤ 12) :
    calculate_monthly_revenue_bounds month year tz =
      (wallClockSeconds year month 1 0 0 0 -
         tz.utcOffsetAt (wallClockSeconds year month 1 0 0 0),
       if month = 12 then
         wallClockSeconds (year + 1) 1 1 0 0 0 -
           tz.utcOffsetAt (wallClockSeconds (year + 1) 1 1 0 0 0)
       else
         wallClockSeconds year (month + 1) 1 0 0 0 -
           tz.utcOffsetAt (wallClockSeconds year (month + 1) 1 0 0 0)) ∧
    calculate_monthly_revenue_bounds 2 2024 americaNewYorkEST =
      (1706763600, 1709269200) ∧
    wallClockSeconds 2024 2 1 5 0 0 = 1706763600 ∧
    wallClockSeconds 2024 3 1 5 0 0 = 1709269200 := by
  refine ⟨?_, by decide, by decide, by decide⟩
  unfold calculate_monthly_revenue_bounds
  by_cases h12 : month = 12
  · subst h12
    norm_num
  · have hlt : month < 12 := lt_of_le_of_ne h h12
    simp [hlt, h12]

/-- Concrete instance of C8: the spec's leap-February example. -/
theorem C8_witness :
    calculate_monthly_revenue_bounds 2 2024 americaNewYorkEST =
      (1706763600, 1709269200) :=
  (C8_month_bounds 2024 2 americaNewYorkEST (by norm_num)).2.1

/-- C9: after a first lookup that computed and cached a summary (the
data-store collaborator ran), a second lookup for the same (tenant,
property) within the 300-second TTL window returns the identical summary,
leaves the local tier unchanged, and does not re-invoke the data-store
collaborator — whatever the external tier or the store would now return. -/
theorem C9_ttl_hit_short_circuit (p t : String) (t0 t1 : ℚ)
    (rg rg2 : String → RedisGetResult) (rs rs2 : String → RedisSetResult)
    (db db2 : DbResult) (st : CacheState)
    (hfirst : (get_revenue_summary p t t0 rg rs db st).2.2 = true)
    (hwindow : t1 ≤ t0 + 300) :
    get_revenue_summary p t t1 rg2 rs2 db2
        (get_revenue_summary p t t0 rg rs db st).2.1 =
      ((get_revenue_summary p t t0 rg rs db st).1,
       (get_revenue_summary p t t0 rg rs db st).2.1, false) := by
  rcases hm : _mem_get (revenue_cache_key t p) t0 st with ⟨o, st2⟩
  cases o with
  | some v =>
      rw [get_revenue_summary_mem_hit hm] at hfirst
      simp at hfirst
  | none =>
      rcases hrg : rg (revenue_cache_key t p) with _ | _ | v
      case hit =>
        rw [get_revenue_summary_miss_redis_hit hm hrg] at hfirst
        simp at hfirst
      all_goals
        first
        | have hrun := @get_revenue_summary_miss_compute p t t0 rg rs db st st2
            hm (Or.inl hrg)
        | have hrun := @get_revenue_summary_miss_compute p t t0 rg rs db st st2
            hm (Or.inr hrg)
      all_goals
        rw [hrun]
        have hexp : alistLookup
            (_mem_set (revenue_cache_key t p)
              (calculate_total_revenue p t db) 300 t0 st2).memoryCacheExpiry
            (revenue_cache_key t p) = some (t0 + 300) :=
          alistLookup_insert_self _ _ _
        have hval : alistLookup
            (_mem_set (revenue_cache_key t p)
              (calculate_total_revenue p t db) 300 t0 st2).memoryCache
            (revenue_cache_key t p) = some (calculate_total_revenue p t db) :=
          alistLookup_insert_self _ _ _
        have hget2 := @_mem_get_fresh (revenue_cache_key t p) t1 (t0 + 300) _
          hexp hwindow
        rw [hval] at hget2
        rw [get_revenue_summary_mem_hit hget2]

/-- Concrete instance of C9: a miss-and-compute at t=0 followed by a second
lookup at t=100 that is served from the local tier without the collaborator
running, whatever the store would now answer. -/
theorem C9_witness :
    get_revenue_summary "prop-001" "tenant-a" 100
        (fun _ => RedisGetResult.err) (fun _ => RedisSetResult.err)
        (DbResult.row (some 7) 9)
        (get_revenue_summary "prop-001" "tenant-a" 0
          (fun _ => RedisGetResult.err) (fun _ => RedisSetResult.err)
          DbResult.noRow ⟨[], []⟩).2.1 =
      ((get_revenue_summary "prop-001" "tenant-a" 0
          (fun _ => RedisGetResult.err) (fun _ => RedisSetResult.err)
          DbResult.noRow ⟨[], []⟩).1,
       (get_revenue_summary "prop-001" "tenant-a" 0
          (fun _ => RedisGetResult.err) (fun _ => RedisSetResult.err)
          DbResult.noRow ⟨[], []⟩).2.1, false) :=
  C9_ttl_hit_short_circuit "prop-001" "tenant-a" 0 100
    (fun _ => RedisGetResult.err) (fun _ => RedisGetResult.err)
    (fun _ => RedisSetResult.err) (fun _ => RedisSetResult.err)
    DbResult.noRow (DbResult.row (some 7) 9) ⟨[], []⟩ rfl (by norm_num)

end RevenueApp
